import Mathlib

/-!
Verification development for the logistics treasury audit engine:
a shallow embedding of the deterministic audit-and-eligibility pipeline
(`src/app/routers/ingest.py`) and of the claim lifecycle actions
(`src/carrier_alpha.py`), with theorems about eligibility decisions,
exception resolution, ledger idempotence and claim reconciliation.

Modelling conventions:
- Python `datetime` values are `PyDateTime`: an integer wall-clock value in
  seconds together with an optional UTC offset in seconds (`none` = naive).
  `astimezone(utc)` of an aware value yields `wall - offset`;
  `replace(tzinfo=utc)` of a naive value keeps `wall`.
- Money (`Decimal` / floats) is `Rat`; database rows are Lean structures and
  tables are lists in query/insert order (`limit 1` = `List.head?` of the
  filtered list, `find?` of the predicate).
- Raised exceptions are `Except` errors.
-/

namespace Treasury

/-- A Python `datetime`: wall-clock seconds plus optional tz offset (seconds).
`tzOffset = none` models a naive datetime. -/
structure PyDateTime where
  wall : Int
  tzOffset : Option Int
deriving DecidableEq, Repr

/-- Model of `_to_utc_with_assumption`: tz-aware converts to UTC with confidence 1.0,
naive is assumed UTC with confidence 0.7. Returns (utc, assumption, confidence). -/
def toUtcWithAssumption (dt : PyDateTime) : Int × String × Rat :=
  match dt.tzOffset with
  | none => (dt.wall, "UTC_ASSUMED", (7 : Rat) / 10)
  | some o => (dt.wall - o, "SOURCE_TZ", 1)

/-- UTC value of a timestamp after `_to_utc_with_assumption`. -/
def utcOf (dt : PyDateTime) : Int := (toUtcWithAssumption dt).1

/-- Timezone confidence of a timestamp after `_to_utc_with_assumption`. -/
def confOf (dt : PyDateTime) : Rat := (toUtcWithAssumption dt).2.2

/-- The constant `AMBIGUOUS_TIME_WINDOW_MINUTES = 30`, the fail-closed threshold. -/
def AMBIGUOUS_TIME_WINDOW_MINUTES : Nat := 30

/-- Python `f"{x}"` on an optional string (`None` prints as "None"). -/
def pyStrOpt : Option String → String
  | none => "None"
  | some s => s

/-- Output of the eligibility decision block of `ingest_and_audit`. -/
structure Decision where
  is_eligible : Bool
  refundable_amount : Rat
  failure_reason : Option String
  rule_id : String
deriving DecidableEq, Repr

/-- The deterministic eligibility decision of `ingest_and_audit` (steps 2 and 5
of the source): timezone normalization with assumption tracking, the ambiguity
fail-closed gate, the lateness test, the combined verdict and the variance. -/
def decide (promised actual : PyDateTime) (is_guaranteed exception_found : Bool)
    (exception_category : Option String) (total_charged : Rat) : Decision :=
  let promised_utc := utcOf promised
  let actual_utc := utcOf actual
  let tz_confidence := min (confOf promised) (confOf actual)
  let tz_assumption := if tz_confidence = 1 then "SOURCE_TZ" else "UTC_ASSUMED"
  let delta_seconds : Nat := (actual_utc - promised_utc).natAbs
  let ambiguous_time : Bool :=
    (tz_assumption != "SOURCE_TZ") &&
      Decidable.decide (delta_seconds < AMBIGUOUS_TIME_WINDOW_MINUTES * 60)
  if ambiguous_time then
    { is_eligible := false
      refundable_amount := 0
      failure_reason := some "Ambiguous delivery time (timezone)"
      rule_id := "RULE_TZ_AMBIGUOUS_FAIL_CLOSED" }
  else
    let is_late : Bool := Decidable.decide (actual_utc > promised_utc)
    let is_eligible : Bool := is_late && is_guaranteed && !exception_found
    let refundable_amount : Rat := if is_eligible then total_charged else 0
    if exception_found then
      { is_eligible, refundable_amount
        failure_reason := some ("Excusable Delay (" ++ pyStrOpt exception_category ++ ")")
        rule_id := "RULE_EXCEPTION_RULES" }
    else if !is_guaranteed then
      { is_eligible, refundable_amount
        failure_reason := some "Non-guaranteed service"
        rule_id := "RULE_SERVICE_NOT_GUARANTEED" }
    else if is_late then
      { is_eligible, refundable_amount
        failure_reason := some "Late Delivery (GSR)"
        rule_id := "RULE_LATE_DELIVERY" }
    else
      { is_eligible, refundable_amount
        failure_reason := none
        rule_id := "RULE_ON_TIME" }

/-- Python `str.strip()`: drop whitespace from both ends. -/
def trimStr (s : String) : String :=
  ⟨((s.data.dropWhile Char.isWhitespace).reverse.dropWhile Char.isWhitespace).reverse⟩

/-- Python `str.upper()`. -/
def upperStr (s : String) : String := ⟨s.data.map Char.toUpper⟩

/-- Python `str.split()` with no argument: split on whitespace runs, dropping
empty pieces (`acc` holds the current word reversed). -/
def wordsAux (acc : List Char) : List Char → List (List Char)
  | [] => if acc.isEmpty then [] else [acc.reverse]
  | c :: cs =>
    if c.isWhitespace then
      if acc.isEmpty then wordsAux [] cs else acc.reverse :: wordsAux [] cs
    else wordsAux (c :: acc) cs

/-- Python `" ".join(words)`. -/
def joinSpace : List (List Char) → List Char
  | [] => []
  | [w] => w
  | w :: ws => w ++ ' ' :: joinSpace ws

/-- Model of `_normalize_carrier`: strip, upper-case, map aliases to canonical tags. -/
def normalizeCarrier (carrier : String) : String :=
  let c := upperStr (trimStr carrier)
  if c = "FEDEX" ∨ c = "FEDX" ∨ c = "FDX" then "FEDEX"
  else if c = "UPS" ∨ c = "UNITED PARCEL SERVICE" then "UPS"
  else c

/-- Model of `_normalize_service_type`: trim, upper-case, collapse internal whitespace
(`" ".join(s.strip().upper().split())`). -/
def normalizeServiceType (service_type : String) : String :=
  if service_type = "" then ""
  else ⟨joinSpace (wordsAux [] (upperStr (trimStr service_type)).data)⟩

/-- A row of the `service_commitments` reference table. -/
structure CommitmentRow where
  carrier : String
  service_type : String
  guaranteed : Bool
  valid_from : Int
  valid_to : Option Int
deriving DecidableEq, Repr

/-- The rows the `_is_service_guaranteed` query selects: matching carrier and
service type with `valid_to` null (current commitments). -/
def currentCommitments (rows : List CommitmentRow) (carrier service_type_norm : String) :
    List CommitmentRow :=
  rows.filter fun r =>
    r.carrier == carrier && r.service_type == service_type_norm && r.valid_to.isNone

/-- Model of `_is_service_guaranteed`: empty service type is not guaranteed; otherwise
take the current commitment row with the latest `valid_from` (query orders by
`valid_from` descending, `limit 1`); absence of a row yields `false`. -/
def isServiceGuaranteed (rows : List CommitmentRow) (carrier service_type_norm : String) :
    Bool :=
  if service_type_norm = "" then false
  else
    match ((currentCommitments rows carrier service_type_norm).mergeSort
        (fun a b => Decidable.decide (b.valid_from ≤ a.valid_from))).head? with
    | some row => row.guaranteed
    | none => false

/-- A row of the `exception_rules` reference table. -/
structure ExceptionRule where
  carrier : String
  match_type : String
  match_value : String
  excusable : Bool
  category : Option String
deriving DecidableEq, Repr

/-- The static fallback list `EXCUSABLE_KEYWORDS`. -/
def EXCUSABLE_KEYWORDS : List String :=
  ["WEATHER", "NATURAL DISASTER", "EMERGENCY", "FORCE MAJEURE",
   "STRIKE", "NATIONAL EMERGENCY", "SECURITY DELAY", "GOVERNMENT",
   "ACT OF GOD", "CLOSED DUE TO"]

/-- Whether `needle` occurs at the front of `haystack`. -/
def charsAtFront : List Char → List Char → Bool
  | [], _ => true
  | _ :: _, [] => false
  | a :: as, b :: bs => a == b && charsAtFront as bs

/-- Whether `needle` occurs somewhere in `haystack` (Python `needle in haystack`). -/
def charsSomewhere (needle : List Char) : List Char → Bool
  | [] => charsAtFront needle []
  | b :: bs => charsAtFront needle (b :: bs) || charsSomewhere needle bs

/-- Python substring test `needle in haystack` on strings. -/
def strHasSub (needle haystack : String) : Bool :=
  charsSomewhere needle.data haystack.data

/-- Result triple of `_lookup_exception_rule`: (found, category, signal). -/
abbrev ExcResult := Bool × Option String × Option String

/-- Tier 1 of `_lookup_exception_rule`: the CODE-rule query (`limit 1` over
rows matching carrier, match_type CODE, match_value) — a hit only when the
retrieved row is marked excusable. -/
def codeTier (rules : List ExceptionRule) (carrierU : String) (codeU : Option String) :
    Option ExcResult :=
  match codeU with
  | none => none
  | some cu =>
    match (rules.filter fun r =>
        r.carrier == carrierU && r.match_type == "CODE" && r.match_value == cu).head? with
    | some row =>
      if row.excusable then some (true, row.category, some ("CODE:" ++ row.match_value))
      else none
    | none => none

/-- Tier 2 of `_lookup_exception_rule`: scan the carrier's KEYWORD rules in
row order; the first rule whose upper-cased match_value is nonempty, occurs in
the text and is marked excusable wins. -/
def keywordTier (rules : List ExceptionRule) (carrierU textU : String) :
    Option ExcResult :=
  (rules.filter fun r => r.carrier == carrierU && r.match_type == "KEYWORD").findSome?
    fun r =>
      let mv := upperStr r.match_value
      if (mv != "") && strHasSub mv textU && r.excusable then
        some (true, r.category, some ("KW:" ++ mv))
      else none

/-- Tier 3 of `_lookup_exception_rule`: the static fallback keyword list,
category reported as OTHER. -/
def fallbackTier (textU : String) : Option ExcResult :=
  EXCUSABLE_KEYWORDS.findSome? fun kw =>
    if strHasSub kw textU then some (true, some "OTHER", some ("KW_FALLBACK:" ++ kw))
    else none

/-- Python `(code or "").upper() if code else None`: an absent or empty code
is treated as no code. -/
def normalizeCode : Option String → Option String
  | none => none
  | some c => if c = "" then none else some (upperStr c)

/-- Model of `_lookup_exception_rule`: tiered deterministic exception evaluation —
CODE rules, then KEYWORD rules, then the static fallback list; not-found when
no tier matches. -/
def lookupExceptionRule (rules : List ExceptionRule) (carrier : String)
    (code : Option String) (text : String) : ExcResult :=
  let carrierU := upperStr (trimStr carrier)
  let textU := upperStr text
  let codeU := normalizeCode code
  match codeTier rules carrierU codeU with
  | some res => res
  | none =>
    match keywordTier rules carrierU textU with
    | some res => res
    | none =>
      match fallbackTier textU with
      | some res => res
      | none => (false, none, none)

/-- The `ShipmentIngest` request schema (`src/app/schemas.py`):
`raw_metadata` is an opaque JSON dict, modelled as key/value pairs. -/
structure ShipmentIngest where
  tracking_number : String
  carrier : String
  service_type : String
  total_charged : Rat
  contract_rate : Rat
  shipped_at : PyDateTime
  promised_delivery : PyDateTime
  delivery_ts : PyDateTime
  raw_metadata : List (String × String)
deriving DecidableEq, Repr

/-- The parsed result of an optional live-tracking poll
(`fedex_engine.track` / `ups_engine.track`): an optional parsed timestamp,
an optional structured exception code, and status/description text. -/
structure LiveData where
  timestamp : Option PyDateTime
  exception_code : Option String
  status : String
  description : String
deriving DecidableEq, Repr

/-- The two read-only reference tables consumed by the engine. -/
structure Env where
  service_commitments : List CommitmentRow
  exception_rules : List ExceptionRule
deriving Repr

/-- A row of the `shipments` table as written by `ingest_and_audit`
(timestamps stored as their UTC values; `weight_lbs` is null because
`ShipmentIngest` has no `weight_value` field). -/
structure ShipmentRow where
  id : Nat
  carrier : String
  tracking_number : String
  service_type : String
  shipped_at : Int
  promised_delivery : Int
  actual_delivery : Int
  total_charged : Rat
  weight_lbs : Option Rat
  raw_json_data : ShipmentIngest
deriving DecidableEq, Repr

/-- A row of the `audit_results` table. -/
structure AuditRow where
  id : Nat
  shipment_id : Nat
  is_eligible : Bool
  variance_amount : Rat
  failure_reason : Option String
  rule_id : String
  audited_at : Int
  timezone_assumption : String
  timezone_confidence : Rat
  exception_category : Option String
  exception_signal : Option String
deriving DecidableEq, Repr

/-- A row of the `claims` table; columns the ingest upsert never supplies
(`submitted_at`, `settled_at`, `carrier_case_number`, `recovery_amount`)
default to null on insert. -/
structure ClaimRow where
  id : Nat
  shipment_id : Nat
  audit_id : Nat
  status : String
  claim_amount : Rat
  reason : String
  created_at : Int
  submitted_at : Option Int
  settled_at : Option Int
  carrier_case_number : Option String
  recovery_amount : Option Rat
deriving DecidableEq, Repr

/-- The persistent ledger: the three owned tables in row order, plus the next
storage-generated id. -/
structure LedgerState where
  shipments : List ShipmentRow
  audits : List AuditRow
  claims : List ClaimRow
  nextId : Nat
deriving DecidableEq, Repr

/-- The empty ledger. -/
def emptyLedger : LedgerState := ⟨[], [], [], 0⟩

/-- Model of `_get_shipment_by_natural_key`: first row matching (carrier, tracking_number). -/
def getShipmentByNaturalKey (st : LedgerState) (carrier tracking : String) :
    Option ShipmentRow :=
  st.shipments.find? fun r => r.carrier == carrier && r.tracking_number == tracking

/-- The non-key columns of a shipment upsert payload. -/
structure ShipFields where
  service_type : String
  shipped_at : Int
  promised_delivery : Int
  actual_delivery : Int
  total_charged : Rat
  weight_lbs : Option Rat
  raw_json_data : ShipmentIngest
deriving DecidableEq, Repr

/-- Model of `_upsert_shipment`: update the row found by natural key in place, else
insert a fresh row. Returns the written row and the new state. -/
def upsertShipment (st : LedgerState) (carrier tracking : String) (f : ShipFields) :
    ShipmentRow × LedgerState :=
  match getShipmentByNaturalKey st carrier tracking with
  | some existing =>
    let updated : ShipmentRow :=
      { id := existing.id
        carrier
        tracking_number := tracking
        service_type := f.service_type
        shipped_at := f.shipped_at
        promised_delivery := f.promised_delivery
        actual_delivery := f.actual_delivery
        total_charged := f.total_charged
        weight_lbs := f.weight_lbs
        raw_json_data := f.raw_json_data }
    (updated,
      { st with shipments := st.shipments.map fun r =>
          if r.id == existing.id then updated else r })
  | none =>
    let row : ShipmentRow :=
      { id := st.nextId
        carrier
        tracking_number := tracking
        service_type := f.service_type
        shipped_at := f.shipped_at
        promised_delivery := f.promised_delivery
        actual_delivery := f.actual_delivery
        total_charged := f.total_charged
        weight_lbs := f.weight_lbs
        raw_json_data := f.raw_json_data }
    (row, { st with shipments := st.shipments ++ [row], nextId := st.nextId + 1 })

/-- Model of `_get_audit_by_shipment_id`: first audit row for the shipment. -/
def getAuditByShipmentId (st : LedgerState) (shipment_id : Nat) : Option AuditRow :=
  st.audits.find? fun r => r.shipment_id == shipment_id

/-- The non-key columns of an audit upsert payload. -/
structure AuditFields where
  is_eligible : Bool
  variance_amount : Rat
  failure_reason : Option String
  rule_id : String
  audited_at : Int
  timezone_assumption : String
  timezone_confidence : Rat
  exception_category : Option String
  exception_signal : Option String
deriving DecidableEq, Repr

/-- Model of `_upsert_audit_result`: update the shipment's audit row in place, else
insert a fresh one. -/
def upsertAuditResult (st : LedgerState) (shipment_id : Nat) (f : AuditFields) :
    AuditRow × LedgerState :=
  match getAuditByShipmentId st shipment_id with
  | some existing =>
    let updated : AuditRow :=
      { id := existing.id
        shipment_id
        is_eligible := f.is_eligible
        variance_amount := f.variance_amount
        failure_reason := f.failure_reason
        rule_id := f.rule_id
        audited_at := f.audited_at
        timezone_assumption := f.timezone_assumption
        timezone_confidence := f.timezone_confidence
        exception_category := f.exception_category
        exception_signal := f.exception_signal }
    (updated,
      { st with audits := st.audits.map fun r =>
          if r.id == existing.id then updated else r })
  | none =>
    let row : AuditRow :=
      { id := st.nextId
        shipment_id
        is_eligible := f.is_eligible
        variance_amount := f.variance_amount
        failure_reason := f.failure_reason
        rule_id := f.rule_id
        audited_at := f.audited_at
        timezone_assumption := f.timezone_assumption
        timezone_confidence := f.timezone_confidence
        exception_category := f.exception_category
        exception_signal := f.exception_signal }
    (row, { st with audits := st.audits ++ [row], nextId := st.nextId + 1 })

/-- Model of `_get_claim_by_shipment_id`: first claim row for the shipment. -/
def getClaimByShipmentId (st : LedgerState) (shipment_id : Nat) : Option ClaimRow :=
  st.claims.find? fun r => r.shipment_id == shipment_id

/-- The columns supplied by the ingest claim upsert payload (the Supabase
update touches only these keys plus `shipment_id`/`audit_id`). -/
structure ClaimUpsertFields where
  status : String
  claim_amount : Rat
  reason : String
  created_at : Int
deriving DecidableEq, Repr

/-- Model of `_upsert_claim`: update the shipment's claim row in place — overwriting
exactly the payload keys and leaving the other columns as they were — else
insert a fresh claim whose unsupplied columns are null. -/
def upsertClaim (st : LedgerState) (shipment_id audit_id : Nat) (f : ClaimUpsertFields) :
    ClaimRow × LedgerState :=
  match getClaimByShipmentId st shipment_id with
  | some existing =>
    let updated : ClaimRow :=
      { existing with
        shipment_id := shipment_id
        audit_id := audit_id
        status := f.status
        claim_amount := f.claim_amount
        reason := f.reason
        created_at := f.created_at }
    (updated,
      { st with claims := st.claims.map fun r =>
          if r.id == existing.id then updated else r })
  | none =>
    let row : ClaimRow :=
      { id := st.nextId
        shipment_id
        audit_id
        status := f.status
        claim_amount := f.claim_amount
        reason := f.reason
        created_at := f.created_at
        submitted_at := none
        settled_at := none
        carrier_case_number := none
        recovery_amount := none }
    (row, { st with claims := st.claims ++ [row], nextId := st.nextId + 1 })

/-- Python `failure_reason or "Late Delivery (GSR)"` (None and "" are falsy). -/
def pyOrDefault (s : Option String) (d : String) : String :=
  match s with
  | none => d
  | some v => if v = "" then d else v

/-- Everything `ingest_and_audit` computes before touching the ledger:
the canonical key, the shipment payload, the decision and its provenance. -/
structure CoreResult where
  carrier : String
  tracking : String
  ship : ShipFields
  decision : Decision
  tz_assumption : String
  tz_confidence : Rat
  exception_category : Option String
  exception_signal : Option String
deriving DecidableEq, Repr

/-- Steps 0–5 of `ingest_and_audit`: canonicalization, the optional live
override of the actual-delivery timestamp and exception signals, timezone
normalization, guarantee lookup, exception resolution and the eligibility
decision. Unsupported carriers fail with HTTP 400. -/
def ingestCore (env : Env) (live : Option LiveData) (shipment : ShipmentIngest) :
    Except String CoreResult :=
  let carrier := normalizeCarrier shipment.carrier
  if carrier = "FEDEX" ∨ carrier = "UPS" then
    let tracking := trimStr shipment.tracking_number
    let service_norm := normalizeServiceType shipment.service_type
    let actual_dt :=
      match live with
      | some ld => match ld.timestamp with
        | some t => t
        | none => shipment.delivery_ts
      | none => shipment.delivery_ts
    let live_exception_code := match live with
      | some ld => ld.exception_code
      | none => none
    let live_exception_text :=
      (match live with | some ld => ld.status | none => "") ++ " " ++
      (match live with | some ld => ld.description | none => "")
    let tz_confidence := min (confOf shipment.promised_delivery) (confOf actual_dt)
    let tz_assumption := if tz_confidence = 1 then "SOURCE_TZ" else "UTC_ASSUMED"
    let is_guaranteed := isServiceGuaranteed env.service_commitments carrier service_norm
    let exc := lookupExceptionRule env.exception_rules carrier live_exception_code
      live_exception_text
    let decision := decide shipment.promised_delivery actual_dt is_guaranteed exc.1
      exc.2.1 shipment.total_charged
    .ok
      { carrier, tracking
        ship :=
          { service_type := if service_norm ≠ "" then service_norm else shipment.service_type
            shipped_at := utcOf shipment.shipped_at
            promised_delivery := utcOf shipment.promised_delivery
            actual_delivery := utcOf actual_dt
            total_charged := shipment.total_charged
            weight_lbs := none
            raw_json_data := shipment }
        decision
        tz_assumption, tz_confidence
        exception_category := exc.2.1
        exception_signal := exc.2.2 }
  else .error ("Unsupported carrier: " ++ shipment.carrier)

/-- Step 8 of `ingest_and_audit`: the claim upsert, performed only when the
verdict is eligible. -/
def claimStep (decision : Decision) (now : Int) (shipment_id audit_id : Nat)
    (st : LedgerState) : LedgerState :=
  if decision.is_eligible then
    (upsertClaim st shipment_id audit_id
      { status := "DRAFT"
        claim_amount := decision.refundable_amount
        reason := pyOrDefault decision.failure_reason "Late Delivery (GSR)"
        created_at := now }).2
  else st

/-- Steps 6–8 of `ingest_and_audit`: the three-step upsert sequence of the
idempotent ledger writer (`now` is the wall clock used for `audited_at` /
`created_at`). -/
def writeLedger (core : CoreResult) (now : Int) (st : LedgerState) : LedgerState :=
  let (shipRow, st1) := upsertShipment st core.carrier core.tracking core.ship
  let (auditRow, st2) := upsertAuditResult st1 shipRow.id
    { is_eligible := core.decision.is_eligible
      variance_amount := core.decision.refundable_amount
      failure_reason := core.decision.failure_reason
      rule_id := core.decision.rule_id
      audited_at := now
      timezone_assumption := core.tz_assumption
      timezone_confidence := core.tz_confidence
      exception_category := core.exception_category
      exception_signal := core.exception_signal }
  claimStep core.decision now shipRow.id auditRow.id st2

/-- Model of `ingest_and_audit` end to end over the ledger state. -/
def ingestAndAudit (env : Env) (live : Option LiveData) (shipment : ShipmentIngest)
    (now : Int) (st : LedgerState) : Except String LedgerState :=
  (ingestCore env live shipment).map fun core => writeLedger core now st

/-- Iterated ingestion: `n` successive ingestions of the same payload. -/
def ingestIter (env : Env) (live : Option LiveData) (shipment : ShipmentIngest)
    (now : Int) : Nat → LedgerState → Except String LedgerState
  | 0, st => .ok st
  | n + 1, st =>
    match ingestAndAudit env live shipment now st with
    | .ok st1 => ingestIter env live shipment now n st1
    | .error e => .error e

/-- Errors raised by `reconcile_claim` before any write. -/
inductive ReconcileError where
  | invalidReconciliationStatus
  | missingRecoveryAmount
deriving DecidableEq, Repr

/-- The update payload `reconcile_claim` applies to the targeted claim row:
status and `settled_at` always, the stripped case number when one is given,
and `recovery_amount` only on RECOVERED; every other column is untouched. -/
def reconcileRow (status : String) (carrier_case_number : Option String)
    (recovery_amount : Option Rat) (now : Int) (c : ClaimRow) : ClaimRow :=
  { c with
    status := status
    settled_at := some now
    carrier_case_number :=
      match carrier_case_number with
      | some s => if s ≠ "" then some (trimStr s) else c.carrier_case_number
      | none => c.carrier_case_number
    recovery_amount :=
      if status = "RECOVERED" then recovery_amount else c.recovery_amount }

/-- Model of `reconcile_claim` (`src/carrier_alpha.py`): reject a target status other
than RECOVERED/DENIED, and RECOVERED without a recovery amount, before any
write (the error carries no updated ledger); otherwise update exactly the
payload keys of the claim row. -/
def reconcileClaim (claims : List ClaimRow) (claim_id : Nat) (status : String)
    (carrier_case_number : Option String) (recovery_amount : Option Rat) (now : Int) :
    Except ReconcileError (List ClaimRow) :=
  if status ≠ "RECOVERED" ∧ status ≠ "DENIED" then
    .error .invalidReconciliationStatus
  else if status = "RECOVERED" ∧ recovery_amount = none then
    .error .missingRecoveryAmount
  else
    .ok (claims.map fun c =>
      if c.id == claim_id then
        reconcileRow status carrier_case_number recovery_amount now c
      else c)

/-- Model of `mark_claims_submitted`: set each listed claim's status to SUBMITTED with
`submitted_at`. -/
def markClaimsSubmitted (claims : List ClaimRow) (claim_ids : List Nat) (now : Int) :
    List ClaimRow :=
  claim_ids.foldl
    (fun acc cid => acc.map fun c =>
      if c.id == cid then { c with status := "SUBMITTED", submitted_at := some now }
      else c)
    claims

/-! ## Theorems -/

/-- Each timestamp's confidence is 0.7 (naive) or 1.0 (tz-aware). -/
theorem confOf_cases (dt : PyDateTime) : confOf dt = (7 : Rat) / 10 ∨ confOf dt = 1 := by
  cases h : dt.tzOffset <;> simp [confOf, toUtcWithAssumption, h]

/-- With a false guarantee flag the verdict is never eligible, on every path. -/
theorem decide_not_guaranteed_not_eligible (promised actual : PyDateTime) (ef : Bool)
    (ec : Option String) (tc : Rat) :
    (decide promised actual false ef ec tc).is_eligible = false := by
  simp only [decide]
  cases ef <;> simp <;> split <;> rfl

/-- C1: when the ambiguity gate does not fire (combined confidence 1.0 or
delta at least 30 minutes), the verdict is `is_late && guaranteed && !exception`,
the variance is the full charge exactly when eligible, and exactly one of the
four mutually exclusive narrative outcomes is recorded: excusable delay,
non-guaranteed service, late delivery, or on-time (equal timestamps on-time,
reason null). -/
theorem decide_gate_off_four_outcomes
    (promised actual : PyDateTime) (g ef : Bool) (ec : Option String) (tc : Rat)
    (hgate : min (confOf promised) (confOf actual) = 1 ∨
      30 * 60 ≤ (utcOf actual - utcOf promised).natAbs) :
    (decide promised actual g ef ec tc).is_eligible
        = (Decidable.decide (utcOf promised < utcOf actual) && g && !ef)
  ∧ (decide promised actual g ef ec tc).refundable_amount
        = (if (decide promised actual g ef ec tc).is_eligible = true then tc else 0)
  ∧ (ef = true →
      (decide promised actual g ef ec tc).failure_reason
          = some ("Excusable Delay (" ++ pyStrOpt ec ++ ")")
      ∧ (decide promised actual g ef ec tc).rule_id = "RULE_EXCEPTION_RULES"
      ∧ (decide promised actual g ef ec tc).is_eligible = false)
  ∧ (ef = false → g = false →
      (decide promised actual g ef ec tc).failure_reason = some "Non-guaranteed service"
      ∧ (decide promised actual g ef ec tc).rule_id = "RULE_SERVICE_NOT_GUARANTEED")
  ∧ (ef = false → g = true → utcOf promised < utcOf actual →
      (decide promised actual g ef ec tc).failure_reason = some "Late Delivery (GSR)"
      ∧ (decide promised actual g ef ec tc).rule_id = "RULE_LATE_DELIVERY"
      ∧ (decide promised actual g ef ec tc).is_eligible = true)
  ∧ (ef = false → g = true → ¬ utcOf promised < utcOf actual →
      (decide promised actual g ef ec tc).failure_reason = none
      ∧ (decide promised actual g ef ec tc).rule_id = "RULE_ON_TIME"
      ∧ (decide promised actual g ef ec tc).is_eligible = false) := by
  have hAmb : ((if min (confOf promised) (confOf actual) = 1 then "SOURCE_TZ"
        else "UTC_ASSUMED") != "SOURCE_TZ"
      && Decidable.decide
        ((utcOf actual - utcOf promised).natAbs < AMBIGUOUS_TIME_WINDOW_MINUTES * 60))
      = false := by
    rcases hgate with h1 | h2
    · simp [h1]
    · have h3 : ¬ (utcOf actual - utcOf promised).natAbs < AMBIGUOUS_TIME_WINDOW_MINUTES * 60 := by
        simp only [AMBIGUOUS_TIME_WINDOW_MINUTES]
        omega
      simp [h3]
  simp only [decide, hAmb, Bool.false_eq_true, if_false]
  cases ef <;> cases g <;>
    by_cases hl : utcOf promised < utcOf actual <;>
      simp [hl]

/-- C1 witness: a concrete tz-aware late guaranteed shipment with no
exception is eligible for the full charge under RULE_LATE_DELIVERY. -/
theorem decide_gate_off_four_outcomes_witness :
    (decide ⟨1000, some 0⟩ ⟨2000, some 0⟩ true false none 125).is_eligible
        = (Decidable.decide
            (utcOf ⟨1000, some 0⟩ < utcOf (⟨2000, some 0⟩ : PyDateTime))
          && true && !false)
    ∧ (decide ⟨1000, some 0⟩ ⟨2000, some 0⟩ true false none 125).failure_reason
        = some "Late Delivery (GSR)" := by
  have h := decide_gate_off_four_outcomes ⟨1000, some 0⟩ ⟨2000, some 0⟩ true false none 125
    (Or.inl (by decide))
  exact ⟨h.1, (h.2.2.2.2.1 rfl rfl (by decide)).1⟩

/-- C2: with at least one naive timestamp and a delta under 30 minutes, the
fail-closed gate forces a non-eligible verdict with zero variance, the
ambiguity narrative and RULE_TZ_AMBIGUOUS_FAIL_CLOSED, for every guarantee
flag and exception result. -/
theorem decide_ambiguous_fail_closed
    (promised actual : PyDateTime) (g ef : Bool) (ec : Option String) (tc : Rat)
    (hnaive : promised.tzOffset = none ∨ actual.tzOffset = none)
    (hdelta : (utcOf actual - utcOf promised).natAbs < 30 * 60) :
    decide promised actual g ef ec tc =
      { is_eligible := false
        refundable_amount := 0
        failure_reason := some "Ambiguous delivery time (timezone)"
        rule_id := "RULE_TZ_AMBIGUOUS_FAIL_CLOSED" } := by
  have hmin : min (confOf promised) (confOf actual) ≠ 1 := by
    rcases hnaive with h | h
    · have h7 : confOf promised = (7 : Rat) / 10 := by
        simp [confOf, toUtcWithAssumption, h]
      rcases confOf_cases actual with h2 | h2 <;>
        rw [h7, h2] <;> norm_num [min_def]
    · have h7 : confOf actual = (7 : Rat) / 10 := by
        simp [confOf, toUtcWithAssumption, h]
      rcases confOf_cases promised with h2 | h2 <;>
        rw [h7, h2] <;> norm_num [min_def]
  have hdelta' : (utcOf actual - utcOf promised).natAbs < AMBIGUOUS_TIME_WINDOW_MINUTES * 60 := by
    simpa [AMBIGUOUS_TIME_WINDOW_MINUTES] using hdelta
  simp [decide, hmin, hdelta']

/-- C2 witness: the spec's fail-closed example — naive promised 10:30, naive
actual 10:50 (delta 20 minutes), gate fires even though the service is
guaranteed and no exception was found. -/
theorem decide_ambiguous_fail_closed_witness :
    decide ⟨37800, none⟩ ⟨39000, none⟩ true false none 125 =
      { is_eligible := false
        refundable_amount := 0
        failure_reason := some "Ambiguous delivery time (timezone)"
        rule_id := "RULE_TZ_AMBIGUOUS_FAIL_CLOSED" } :=
  decide_ambiguous_fail_closed ⟨37800, none⟩ ⟨39000, none⟩ true false none 125
    (Or.inl rfl) (by decide)

/-- C4: with no current commitment row for the (carrier, service type) pair
the resolver answers false, and consequently the verdict on every shipment
with that service type is ineligible, even when the actual delivery is
strictly after the promised one. -/
theorem no_commitment_fail_closed
    (rows : List CommitmentRow) (carrier service_type_norm : String)
    (hnone : currentCommitments rows carrier service_type_norm = []) :
    isServiceGuaranteed rows carrier service_type_norm = false
  ∧ ∀ (promised actual : PyDateTime) (ef : Bool) (ec : Option String) (tc : Rat),
      (decide promised actual (isServiceGuaranteed rows carrier service_type_norm)
        ef ec tc).is_eligible = false := by
  have hg : isServiceGuaranteed rows carrier service_type_norm = false := by
    unfold isServiceGuaranteed
    rw [hnone]
    split
    · rfl
    · simp
  refine ⟨hg, fun promised actual ef ec tc => ?_⟩
  rw [hg]
  exact decide_not_guaranteed_not_eligible promised actual ef ec tc

/-- C4 witness: an empty commitments table makes a strictly late shipment
ineligible. -/
theorem no_commitment_fail_closed_witness :
    isServiceGuaranteed [] "FEDEX" "GROUND" = false
  ∧ (decide ⟨1000, some 0⟩ ⟨9999, some 0⟩ (isServiceGuaranteed [] "FEDEX" "GROUND")
      false none 125).is_eligible = false := by
  have h := no_commitment_fail_closed [] "FEDEX" "GROUND" rfl
  exact ⟨h.1, h.2 ⟨1000, some 0⟩ ⟨9999, some 0⟩ false none 125⟩

/-- C9: the decision is a deterministic function of exactly its inputs —
equal inputs yield an identical verdict in every component. -/
theorem decide_deterministic
    (p a p' a' : PyDateTime) (g ef g' ef' : Bool) (ec ec' : Option String)
    (tc tc' : Rat)
    (hp : p = p') (ha : a = a') (hg : g = g') (hef : ef = ef') (hec : ec = ec')
    (htc : tc = tc') :
    decide p a g ef ec tc = decide p' a' g' ef' ec' tc' := by
  subst hp ha hg hef hec htc
  rfl

/-- C9 witness: two calls of the decision at the same concrete input agree. -/
theorem decide_deterministic_witness :
    decide ⟨1000, some 0⟩ ⟨2000, none⟩ true false (some "WEATHER") 125 =
      decide ⟨1000, some 0⟩ ⟨2000, none⟩ true false (some "WEATHER") 125 :=
  decide_deterministic ⟨1000, some 0⟩ ⟨2000, none⟩ ⟨1000, some 0⟩ ⟨2000, none⟩
    true false true false (some "WEATHER") (some "WEATHER") 125 125
    rfl rfl rfl rfl rfl rfl

/-- A CODE-tier hit always reports found. -/
theorem codeTier_found (rules : List ExceptionRule) (carrierU : String)
    (codeU : Option String) (r : ExcResult) (h : codeTier rules carrierU codeU = some r) :
    r.1 = true := by
  unfold codeTier at h
  split at h
  · cases h
  · split at h
    · split at h
      · cases h
        rfl
      · cases h
    · cases h

/-- A KEYWORD-tier hit always reports found. -/
theorem keywordTier_found (rules : List ExceptionRule) (carrierU textU : String)
    (r : ExcResult) (h : keywordTier rules carrierU textU = some r) : r.1 = true := by
  unfold keywordTier at h
  obtain ⟨a, _, ha⟩ := List.exists_of_findSome?_eq_some h
  by_cases hc : (upperStr a.match_value != "") && strHasSub (upperStr a.match_value) textU
      && a.excusable
  · simp only [hc, if_true] at ha
    cases ha
    rfl
  · simp only [hc, if_false] at ha
    cases ha

/-- A fallback-tier hit always reports found, with category OTHER. -/
theorem fallbackTier_found (textU : String) (r : ExcResult)
    (h : fallbackTier textU = some r) : r.1 = true ∧ r.2.1 = some "OTHER" := by
  unfold fallbackTier at h
  obtain ⟨kw, _, hkw⟩ := List.exists_of_findSome?_eq_some h
  by_cases hc : strHasSub kw textU = true
  · simp only [hc, if_true] at hkw
    cases hkw
    exact ⟨rfl, rfl⟩
  · simp only [hc, if_false] at hkw
    cases hkw

/-- C5: the exception resolver evaluates its tiers in the fixed precedence —
an excusable CODE hit stops the search, then the excusable KEYWORD rules, then
the static fallback list reported with category OTHER — and reports not-found
exactly when no tier matches. -/
theorem lookupExceptionRule_tiered (rules : List ExceptionRule) (carrier : String)
    (code : Option String) (text : String) :
    (∀ r, codeTier rules (upperStr (trimStr carrier)) (normalizeCode code) = some r →
        lookupExceptionRule rules carrier code text = r)
  ∧ (codeTier rules (upperStr (trimStr carrier)) (normalizeCode code) = none →
      ∀ r, keywordTier rules (upperStr (trimStr carrier)) (upperStr text) = some r →
        lookupExceptionRule rules carrier code text = r)
  ∧ (codeTier rules (upperStr (trimStr carrier)) (normalizeCode code) = none →
      keywordTier rules (upperStr (trimStr carrier)) (upperStr text) = none →
      ∀ r, fallbackTier (upperStr text) = some r →
        lookupExceptionRule rules carrier code text = r ∧ r.2.1 = some "OTHER")
  ∧ ((lookupExceptionRule rules carrier code text).1 = false ↔
      codeTier rules (upperStr (trimStr carrier)) (normalizeCode code) = none
      ∧ keywordTier rules (upperStr (trimStr carrier)) (upperStr text) = none
      ∧ fallbackTier (upperStr text) = none) := by
  refine ⟨?_, ?_, ?_, ?_, ?_⟩
  · intro r hr
    simp only [lookupExceptionRule, hr]
  · intro h0 r hr
    simp only [lookupExceptionRule, h0, hr]
  · intro h0 h1 r hr
    exact ⟨by simp only [lookupExceptionRule, h0, h1, hr],
      (fallbackTier_found (upperStr text) r hr).2⟩
  · intro h
    cases hc : codeTier rules (upperStr (trimStr carrier)) (normalizeCode code) with
    | some rc =>
      rw [show lookupExceptionRule rules carrier code text = rc from by
        simp only [lookupExceptionRule, hc]] at h
      rw [codeTier_found rules (upperStr (trimStr carrier)) (normalizeCode code) rc hc] at h
      cases h
    | none =>
      cases hk : keywordTier rules (upperStr (trimStr carrier)) (upperStr text) with
      | some rk =>
        rw [show lookupExceptionRule rules carrier code text = rk from by
          simp only [lookupExceptionRule, hc, hk]] at h
        rw [keywordTier_found rules (upperStr (trimStr carrier)) (upperStr text) rk hk] at h
        cases h
      | none =>
        cases hf : fallbackTier (upperStr text) with
        | some rf =>
          rw [show lookupExceptionRule rules carrier code text = rf from by
            simp only [lookupExceptionRule, hc, hk, hf]] at h
          rw [(fallbackTier_found (upperStr text) rf hf).1] at h
          cases h
        | none => exact ⟨rfl, rfl, rfl⟩
  · rintro ⟨h0, h1, h2⟩
    simp only [lookupExceptionRule, h0, h1, h2]

/-- C5 witness: with no DB rules and no code, free text mentioning weather is
caught by the static fallback list with category OTHER. -/
theorem lookupExceptionRule_tiered_witness :
    lookupExceptionRule [] "FEDEX" none "severe weather delay"
      = (true, some "OTHER", some "KW_FALLBACK:WEATHER") :=
  ((lookupExceptionRule_tiered [] "FEDEX" none "severe weather delay").2.2.1
    rfl rfl (true, some "OTHER", some "KW_FALLBACK:WEATHER") (by rfl)).1

/-- C10: a CODE rule that matches the supplied code but is not excusable does
not stop the search — the resolver behaves exactly as if no code had been
supplied, so the KEYWORD tier and the static fallback list are still
evaluated. -/
theorem codeTier_not_excusable_falls_through
    (rules : List ExceptionRule) (carrier code text : String) (row : ExceptionRule)
    (hcode : code ≠ "")
    (hrow : (rules.filter fun r => r.carrier == upperStr (trimStr carrier)
        && r.match_type == "CODE" && r.match_value == upperStr code).head? = some row)
    (hexc : row.excusable = false) :
    lookupExceptionRule rules carrier (some code) text =
      lookupExceptionRule rules carrier none text := by
  have hnc : normalizeCode (some code) = some (upperStr code) := by
    simp [normalizeCode, hcode]
  have hct : codeTier rules (upperStr (trimStr carrier)) (some (upperStr code)) = none := by
    simp [codeTier, hrow, hexc]
  have hn0 : normalizeCode none = none := rfl
  have hct0 : codeTier rules (upperStr (trimStr carrier)) none = none := rfl
  simp only [lookupExceptionRule, hnc, hct, hn0, hct0]

/-- C10 witness: a non-excusable matching CODE rule for the supplied code
leaves the outcome identical to a lookup without any code. -/
theorem codeTier_not_excusable_falls_through_witness :
    lookupExceptionRule [⟨"FEDEX", "CODE", "DE1", false, some "X"⟩] "FEDEX"
        (some "DE1") "strike action"
      = lookupExceptionRule [⟨"FEDEX", "CODE", "DE1", false, some "X"⟩] "FEDEX"
        none "strike action" :=
  codeTier_not_excusable_falls_through [⟨"FEDEX", "CODE", "DE1", false, some "X"⟩]
    "FEDEX" "DE1" "strike action" ⟨"FEDEX", "CODE", "DE1", false, some "X"⟩
    (by decide) (by rfl) rfl

/-- Re-running the ledger writer with the same computed decision on its own
output changes nothing: the second run finds and updates the rows the first
run wrote, with identical values. -/
theorem writeLedger_empty_idem (core : CoreResult) (now : Int) :
    writeLedger core now (writeLedger core now emptyLedger)
      = writeLedger core now emptyLedger := by
  cases he : core.decision.is_eligible <;>
    simp [writeLedger, upsertShipment, upsertAuditResult, upsertClaim, claimStep,
      getShipmentByNaturalKey, getAuditByShipmentId, getClaimByShipmentId, emptyLedger,
      List.find?, he]

/-- A successful `ingestCore` records the canonical natural key. -/
theorem ingestCore_ok_key (env : Env) (live : Option LiveData) (p : ShipmentIngest)
    (core : CoreResult) (h : ingestCore env live p = .ok core) :
    core.carrier = normalizeCarrier p.carrier ∧ core.tracking = trimStr p.tracking_number := by
  unfold ingestCore at h
  by_cases hc : normalizeCarrier p.carrier = "FEDEX" ∨ normalizeCarrier p.carrier = "UPS"
  · rw [if_pos hc] at h
    simp only [Except.ok.injEq] at h
    rw [← h]
    exact ⟨rfl, rfl⟩
  · rw [if_neg hc] at h
    cases h

/-- A state fixed by one ingestion is fixed by any number of them. -/
theorem ingestIter_fixed (env : Env) (live : Option LiveData) (p : ShipmentIngest)
    (now : Int) (st : LedgerState) (h : ingestAndAudit env live p now st = .ok st) :
    ∀ n, ingestIter env live p now n st = .ok st := by
  intro n
  induction n with
  | zero => rfl
  | succ k ih =>
    show (match ingestAndAudit env live p now st with
      | .ok st1 => ingestIter env live p now k st1
      | .error e => .error e) = .ok st
    rw [h]
    exact ih

/-- C3: ingesting the same payload N ≥ 1 times starting from the empty ledger
converges to the single-ingestion state, which holds exactly one shipment row
(carrying the canonical natural key), exactly one audit row for that shipment,
and at most one claim, itself tied to that shipment. -/
theorem ingest_idempotent (env : Env) (live : Option LiveData) (p : ShipmentIngest)
    (now : Int) (N : Nat) (st : LedgerState) (hN : 1 ≤ N)
    (hok : ingestAndAudit env live p now emptyLedger = .ok st) :
    ingestIter env live p now N emptyLedger = .ok st
  ∧ st.shipments.length = 1
  ∧ (∀ r ∈ st.shipments, r.carrier = normalizeCarrier p.carrier
      ∧ r.tracking_number = trimStr p.tracking_number)
  ∧ st.audits.length = 1
  ∧ (∀ a ∈ st.audits, ∃ r ∈ st.shipments, a.shipment_id = r.id)
  ∧ st.claims.length ≤ 1
  ∧ (∀ c ∈ st.claims, ∃ r ∈ st.shipments, c.shipment_id = r.id) := by
  obtain ⟨core, hcore, hst⟩ :
      ∃ core, ingestCore env live p = .ok core ∧ writeLedger core now emptyLedger = st := by
    unfold ingestAndAudit at hok
    cases hc : ingestCore env live p with
    | ok core =>
      rw [hc] at hok
      cases hok
      exact ⟨core, rfl, rfl⟩
    | error e => rw [hc] at hok; cases hok
  have hfix : ingestAndAudit env live p now st = .ok st := by
    unfold ingestAndAudit
    rw [hcore]
    show Except.ok (writeLedger core now st) = Except.ok st
    rw [← hst, writeLedger_empty_idem]
  have hiter : ingestIter env live p now N emptyLedger = .ok st := by
    obtain ⟨k, rfl⟩ : ∃ k, N = k + 1 := ⟨N - 1, by omega⟩
    show (match ingestAndAudit env live p now emptyLedger with
      | .ok st1 => ingestIter env live p now k st1
      | .error e => .error e) = .ok st
    rw [hok]
    exact ingestIter_fixed env live p now st hfix k
  obtain ⟨hkc, hkt⟩ := ingestCore_ok_key env live p core hcore
  refine ⟨hiter, ?_⟩
  rw [← hst, ← hkc, ← hkt]
  cases he : core.decision.is_eligible <;>
    simp [writeLedger, upsertShipment, upsertAuditResult, upsertClaim, claimStep,
      getShipmentByNaturalKey, getAuditByShipmentId, getClaimByShipmentId, emptyLedger,
      List.find?, he]

/-- The concrete single-ingestion end state used to witness idempotence. -/
def witnessState : LedgerState :=
  { shipments :=
      [{ id := 0
         carrier := "UPS"
         tracking_number := "T1"
         service_type := ""
         shipped_at := 0
         promised_delivery := 100
         actual_delivery := 200
         total_charged := 10
         weight_lbs := none
         raw_json_data :=
           { tracking_number := "T1"
             carrier := "UPS"
             service_type := ""
             total_charged := 10
             contract_rate := 5
             shipped_at := ⟨0, some 0⟩
             promised_delivery := ⟨100, some 0⟩
             delivery_ts := ⟨200, some 0⟩
             raw_metadata := [] } }]
    audits :=
      [{ id := 1
         shipment_id := 0
         is_eligible := false
         variance_amount := 0
         failure_reason := some "Non-guaranteed service"
         rule_id := "RULE_SERVICE_NOT_GUARANTEED"
         audited_at := 7
         timezone_assumption := "SOURCE_TZ"
         timezone_confidence := 1
         exception_category := none
         exception_signal := none }]
    claims := []
    nextId := 2 }

/-- C3 witness: ingesting a concrete payload twice from the empty ledger
yields the single-ingestion state with one shipment, one audit, no claim. -/
theorem ingest_idempotent_witness :
    ingestIter ⟨[], []⟩ none ⟨"T1", "UPS", "", 10, 5, ⟨0, some 0⟩, ⟨100, some 0⟩,
        ⟨200, some 0⟩, []⟩ 7 2 emptyLedger = .ok witnessState
  ∧ witnessState.shipments.length = 1
  ∧ witnessState.audits.length = 1
  ∧ witnessState.claims.length ≤ 1 := by
  have h := ingest_idempotent ⟨[], []⟩ none ⟨"T1", "UPS", "", 10, 5, ⟨0, some 0⟩,
    ⟨100, some 0⟩, ⟨200, some 0⟩, []⟩ 7 2 witnessState (by decide) (by rfl)
  exact ⟨h.1, h.2.1, h.2.2.2.1, h.2.2.2.2.2.1⟩

/-- C6 counterexample: re-ingesting an eligible shipment overwrites the
existing claim's status (here SUBMITTED is reset to DRAFT) and its
created_at, so the update does not touch only claim_amount and reason. -/
theorem claimStep_update_counterexample :
    (claimStep ⟨true, 20, some "Late Delivery (GSR)", "RULE_LATE_DELIVERY"⟩ 7 0 1
        ⟨[], [], [⟨5, 0, 1, "SUBMITTED", 10, "r", 0, some 3, none, none, none⟩], 6⟩).claims
      = [⟨5, 0, 1, "DRAFT", 20, "Late Delivery (GSR)", 7, some 3, none, none, none⟩] := by
  rfl

/-- C6 (amended): the claim step of the ledger writer — when not eligible the
state is untouched; when eligible and a claim exists, the upsert overwrites
status (to DRAFT), claim_amount, reason, created_at and audit_id while
preserving submitted_at, settled_at, carrier_case_number and recovery_amount
(the `with`-update keeps every unlisted column of the found row); when
eligible and no claim exists, a fresh DRAFT claim with the variance amount
and null lifecycle columns is inserted. -/
theorem claimStep_frame (d : Decision) (now : Int) (sid aid : Nat) (st : LedgerState) :
    (d.is_eligible = false → claimStep d now sid aid st = st)
  ∧ (d.is_eligible = true → ∀ c, getClaimByShipmentId st sid = some c →
      (claimStep d now sid aid st).claims
        = st.claims.map (fun r => if r.id == c.id then
            { c with
              shipment_id := sid
              audit_id := aid
              status := "DRAFT"
              claim_amount := d.refundable_amount
              reason := pyOrDefault d.failure_reason "Late Delivery (GSR)"
              created_at := now } else r)
      ∧ (claimStep d now sid aid st).shipments = st.shipments
      ∧ (claimStep d now sid aid st).audits = st.audits
      ∧ (claimStep d now sid aid st).nextId = st.nextId)
  ∧ (d.is_eligible = true → getClaimByShipmentId st sid = none →
      (claimStep d now sid aid st).claims
        = st.claims ++ [⟨st.nextId, sid, aid, "DRAFT", d.refundable_amount,
            pyOrDefault d.failure_reason "Late Delivery (GSR)", now, none, none, none, none⟩]
      ∧ (claimStep d now sid aid st).shipments = st.shipments
      ∧ (claimStep d now sid aid st).audits = st.audits
      ∧ (claimStep d now sid aid st).nextId = st.nextId + 1) := by
  refine ⟨fun h => ?_, fun he c hc => ?_, fun he hc => ?_⟩
  · simp [claimStep, h]
  · refine ⟨?_, ?_, ?_, ?_⟩ <;> simp [claimStep, he, upsertClaim, hc]
  · refine ⟨?_, ?_, ?_, ?_⟩ <;> simp [claimStep, he, upsertClaim, hc]

/-- C6 witness: a concrete eligible decision against a ledger holding a
SUBMITTED claim exercises the update path of the frame theorem. -/
theorem claimStep_frame_witness :
    (claimStep ⟨true, 20, some "Late Delivery (GSR)", "RULE_LATE_DELIVERY"⟩ 7 0 1
        ⟨[], [], [⟨5, 0, 1, "SUBMITTED", 10, "r", 0, some 3, none, some "C4", none⟩], 6⟩).claims
      = [⟨5, 0, 1, "DRAFT", 20, "Late Delivery (GSR)", 7, some 3, none, some "C4", none⟩] := by
  have h := (claimStep_frame ⟨true, 20, some "Late Delivery (GSR)", "RULE_LATE_DELIVERY"⟩
    7 0 1 ⟨[], [], [⟨5, 0, 1, "SUBMITTED", 10, "r", 0, some 3, none, some "C4", none⟩], 6⟩).2.1
    rfl ⟨5, 0, 1, "SUBMITTED", 10, "r", 0, some 3, none, some "C4", none⟩ rfl
  exact h.1

/-- C7: reconciliation rejects a target status other than RECOVERED/DENIED
with InvalidReconciliationStatus, and RECOVERED without a recovery amount
with MissingRecoveryAmount; both errors are returned instead of any updated
ledger, so the claim record is unchanged. -/
theorem reconcile_rejects_before_write (claims : List ClaimRow) (cid : Nat)
    (status : String) (ccn : Option String) (ra : Option Rat) (now : Int) :
    (status ≠ "RECOVERED" → status ≠ "DENIED" →
      reconcileClaim claims cid status ccn ra now = .error .invalidReconciliationStatus)
  ∧ reconcileClaim claims cid "RECOVERED" ccn none now
      = .error .missingRecoveryAmount := by
  constructor
  · intro h1 h2
    simp [reconcileClaim, h1, h2]
  · simp [reconcileClaim]

/-- C7 witness: reconciling to SUBMITTED fails as invalid, and RECOVERED
without an amount fails as missing, at concrete inputs. -/
theorem reconcile_rejects_before_write_witness :
    reconcileClaim [] 1 "SUBMITTED" none none 0 = .error .invalidReconciliationStatus
  ∧ reconcileClaim [] 1 "RECOVERED" none none 0 = .error .missingRecoveryAmount := by
  have h := reconcile_rejects_before_write [] 1 "SUBMITTED" none none 0
  exact ⟨h.1 (by decide) (by decide), h.2⟩

/-- C8 counterexample: a single reconcile call moves a DRAFT claim directly
to RECOVERED — the code never inspects the claim's current status. -/
theorem reconcile_draft_direct_counterexample :
    reconcileClaim [⟨1, 0, 0, "DRAFT", 10, "r", 0, none, none, none, none⟩] 1
        "RECOVERED" none (some 5) 99
      = .ok [⟨1, 0, 0, "RECOVERED", 10, "r", 0, none, some 99, none, some 5⟩] := by
  rfl

/-- Marking claims submitted only ever writes the status SUBMITTED; every row
of the result is either stamped SUBMITTED or an untouched original. -/
theorem markClaimsSubmitted_statuses (claims : List ClaimRow) (ids : List Nat) (now : Int) :
    ∀ c' ∈ markClaimsSubmitted claims ids now, c'.status = "SUBMITTED" ∨ c' ∈ claims := by
  suffices h : ∀ (l : List Nat) (acc : List ClaimRow),
      (∀ c ∈ acc, c.status = "SUBMITTED" ∨ c ∈ claims) →
      ∀ c' ∈ l.foldl (fun acc cid => acc.map fun c =>
          if c.id == cid then { c with status := "SUBMITTED", submitted_at := some now }
          else c) acc,
        c'.status = "SUBMITTED" ∨ c' ∈ claims by
    exact h ids claims (fun c hc => Or.inr hc)
  intro l
  induction l with
  | nil => exact fun acc hacc c' hc' => hacc c' hc'
  | cons i rest ih =>
    intro acc hacc c' hc'
    refine ih _ ?_ c' hc'
    intro c hc
    rw [List.mem_map] at hc
    obtain ⟨x, hx, hcx⟩ := hc
    rw [← hcx]
    by_cases hxi : (x.id == i) = true
    · simp only [hxi, if_true]
      exact Or.inl trivial
    · simp only [hxi, if_false]
      exact hacc x hx

/-- C8 (amended): reconcile performs the terminal transition on any claim
regardless of its current status (so a DRAFT claim can be settled directly):
RECOVERED requires a non-null recovery amount, sets settled_at and writes the
amount; DENIED sets settled_at and leaves recovery_amount unchanged; rows
with other ids are untouched and submitted_at is preserved; the only status
mark-claims-submitted ever writes is SUBMITTED, never a terminal one. -/
theorem reconcile_terminal_transitions (claims : List ClaimRow) (cid : Nat)
    (ccn : Option String) (ra : Option Rat) (amt : Rat) (now : Int) (ids : List Nat)
    (c : ClaimRow) :
    ((reconcileRow "RECOVERED" ccn (some amt) now c).status = "RECOVERED"
      ∧ (reconcileRow "RECOVERED" ccn (some amt) now c).settled_at = some now
      ∧ (reconcileRow "RECOVERED" ccn (some amt) now c).recovery_amount = some amt
      ∧ (reconcileRow "RECOVERED" ccn (some amt) now c).submitted_at = c.submitted_at)
  ∧ ((reconcileRow "DENIED" ccn ra now c).status = "DENIED"
      ∧ (reconcileRow "DENIED" ccn ra now c).settled_at = some now
      ∧ (reconcileRow "DENIED" ccn ra now c).recovery_amount = c.recovery_amount
      ∧ (reconcileRow "DENIED" ccn ra now c).submitted_at = c.submitted_at)
  ∧ reconcileClaim claims cid "RECOVERED" ccn none now = .error .missingRecoveryAmount
  ∧ reconcileClaim claims cid "RECOVERED" ccn (some amt) now
      = .ok (claims.map fun x =>
          if x.id == cid then reconcileRow "RECOVERED" ccn (some amt) now x else x)
  ∧ reconcileClaim claims cid "DENIED" ccn ra now
      = .ok (claims.map fun x =>
          if x.id == cid then reconcileRow "DENIED" ccn ra now x else x)
  ∧ (∀ c' ∈ markClaimsSubmitted claims ids now,
      c'.status = "SUBMITTED" ∨ c' ∈ claims) := by
  refine ⟨⟨rfl, rfl, by simp [reconcileRow], rfl⟩,
    ⟨rfl, rfl, by simp [reconcileRow], rfl⟩, ?_, ?_, ?_,
    markClaimsSubmitted_statuses claims ids now⟩
  · simp [reconcileClaim]
  · simp [reconcileClaim]
  · simp [reconcileClaim]

/-- C8 witness: the amended lifecycle facts at concrete inputs — a RECOVERED
row update on a SUBMITTED claim, and the missing-amount rejection. -/
theorem reconcile_terminal_transitions_witness :
    (reconcileRow "RECOVERED" none (some 5) 99
        ⟨1, 0, 0, "SUBMITTED", 10, "r", 0, some 1, none, none, none⟩).status = "RECOVERED"
  ∧ reconcileClaim [] 1 "RECOVERED" none none 99 = .error .missingRecoveryAmount := by
  have h := reconcile_terminal_transitions [] 1 none none 5 99 []
    ⟨1, 0, 0, "SUBMITTED", 10, "r", 0, some 1, none, none, none⟩
  exact ⟨h.1.1, h.2.2.1⟩

end Treasury
